import Mathlib

/-!
Shallow embedding of the borne-server order-lifecycle core
(src/unnamed/part_000): the Prisma-backed data model, the order-number
generator, the SubmitOrder (`new_order`) and TransitionOrder
(`update_order_status`) socket handlers, and the two inventory
adjusters `updateProductStock` / `restoreProductStock`.

Modelling conventions:
* The Prisma store is modelled as an in-memory `ServerState` holding the
  product and order tables; each handler is a pure function
  `ServerState → Except String ServerState`, an `.error` result meaning
  the handler threw and the store was left untouched (in the source,
  every throw happens before the first write of the handler).
* Machine integers and JS numbers used for stock/quantity/timestamps are
  modelled as `Int` (Prisma `Int` columns; monetary float fields, which
  no claim touches, are omitted).
* `OrderStatus` models the Prisma enum; a raw status string outside the
  enum would be rejected by the store layer, which is an external
  collaborator, so handler inputs carry `Option OrderStatus`.
* JS truthiness of the optional `quantity` and `note` payload fields
  (`item.quantity || 1`, `data.note || ...`) is modelled explicitly
  (`jsQuantity`, `jsOr`).
* `Date` values are modelled as UTC milliseconds plus a fixed local
  timezone offset (local time = UTC + offset); `toISOString` date
  extraction is `isoDateStr`, and `setHours(0,0,0,0)` midnight
  computation follows the same arithmetic as the JS runtime.
-/

/-- Prisma enum OrderStatus (prisma/schema.prisma). -/
inductive OrderStatus where
  | NEW | PREPARING | READY | COMPLETED | CANCELLED
  deriving DecidableEq

/-- Prisma enum PaymentMethod. -/
inductive PaymentMethod where
  | CASH | CARD | PAYPAL
  deriving DecidableEq

/-- The string a status interpolates to in a JS template literal. -/
def statusText : OrderStatus → String
  | .NEW => "NEW"
  | .PREPARING => "PREPARING"
  | .READY => "READY"
  | .COMPLETED => "COMPLETED"
  | .CANCELLED => "CANCELLED"

/-- Product row: the fields the core reads or mutates. -/
structure Product where
  id : String
  stock : Int
  isAvailable : Bool
  deriving DecidableEq

/-- OrderItem row: the fields the core reads or mutates. -/
structure OrderItem where
  productId : String
  quantity : Int
  deriving DecidableEq

/-- StatusHistory row (timestamp ordering is the store's concern). -/
structure HistoryEntry where
  status : OrderStatus
  note : String
  deriving DecidableEq

/-- Order row together with its owned items and history. -/
structure Order where
  id : String
  number : String
  customerName : String
  paymentMethod : PaymentMethod
  status : OrderStatus
  isPaid : Bool
  items : List OrderItem
  history : List HistoryEntry
  createdAt : Int
  deriving DecidableEq

/-- The store state: product table and order table. -/
structure ServerState where
  products : List Product
  orders : List Order
  deriving DecidableEq

/-- One cart line of the `new_order` payload (`panier` entry). -/
structure CartLine where
  id : String
  quantity : Option Int
  deriving DecidableEq

/-- The `new_order` payload (monetary fields omitted, see header). -/
structure NewOrderData where
  nom : String
  paiement : String
  panier : List CartLine
  deriving DecidableEq

/-- The `update_order_status` payload. -/
structure UpdateData where
  orderId : String
  status : Option OrderStatus
  isPaid : Option Bool
  note : Option String
  deriving DecidableEq

/-- A `Date` moment: UTC epoch milliseconds and the process-local
timezone offset in milliseconds (local time = UTC + offset). -/
structure Moment where
  utcMillis : Int
  tzOffsetMillis : Int
  deriving DecidableEq

/-- `prisma.product.findFirst({where: {id}})` / `where id:` lookup. -/
def findProduct : List Product → String → Option Product
  | [], _ => none
  | p :: rest, pid => if p.id = pid then some p else findProduct rest pid

/-- `prisma.order.findUnique({where: {id}})` lookup. -/
def findOrder : List Order → String → Option Order
  | [], _ => none
  | o :: rest, oid => if o.id = oid then some o else findOrder rest oid

/-- Stock of the product row with the given id, when present. -/
def stockOf (ps : List Product) (pid : String) : Option Int :=
  (findProduct ps pid).map Product.stock

/-- Availability flag of the product row with the given id, when present. -/
def availOf (ps : List Product) (pid : String) : Option Bool :=
  (findProduct ps pid).map Product.isAvailable

/-- Total quantity the order's items request of one product id. -/
def totalQty : List OrderItem → String → Int
  | [], _ => 0
  | it :: rest, pid =>
      (if it.productId = pid then it.quantity else 0) + totalQty rest pid

/-- mapPaymentMethod (part_000 lines 133-146): case-insensitive aliases,
CASH fallback. -/
def mapPaymentMethod (method : String) : PaymentMethod :=
  let m := method.toUpper
  if m = "CB" ∨ m = "CARD" then .CARD
  else if m = "ESPECES" ∨ m = "CASH" then .CASH
  else if m = "PAYPAL" then .PAYPAL
  else .CASH

/-- JS `item.quantity || 1` (line 283): absent or falsy (0) becomes 1. -/
def jsQuantity : Option Int → Int
  | none => 1
  | some q => if q = 0 then 1 else q

/-- JS `data.note || dflt` (lines 400-402): absent or empty falls back. -/
def jsOr : Option String → String → String
  | none, dflt => dflt
  | some s, dflt => if s = "" then dflt else s

/-! ## Order number generation (part_000 lines 106-130) -/

def msPerDay : Int := 86400000

/-- Gregorian civil date (y, m, d) from days since 1970-01-01, the
standard era-based algorithm used by `Date`/`toISOString`. -/
def civilFromDays (z0 : Int) : Int × Int × Int :=
  let z := z0 + 719468
  let era := z / 146097
  let doe := z - era * 146097
  let yoe := (doe - doe / 1460 + doe / 36524 - doe / 146096) / 365
  let y := yoe + era * 400
  let doy := doe - (365 * yoe + yoe / 4 - yoe / 100)
  let mp := (5 * doy + 2) / 153
  let d := doy - (153 * mp + 2) / 5 + 1
  let m := mp + (if mp < 10 then 3 else -9)
  (y + (if m ≤ 2 then 1 else 0), m, d)

/-- JS `String.prototype.padStart(n, "0")`: left-pad with zeros up to
length `n` (never truncates). -/
def padZero (s : String) (n : Nat) : String :=
  String.mk (List.replicate (n - s.length) '0') ++ s

/-- `today.toISOString().slice(0, 10)` with the dashes removed
(line 108): the UTC calendar date of the moment, as YYYYMMDD. -/
def isoDateStr (ms : Int) : String :=
  let c := civilFromDays (ms / msPerDay)
  padZero (toString c.1) 4 ++ padZero (toString c.2.1) 2 ++ padZero (toString c.2.2) 2

/-- `prisma.order.count({where: {createdAt: {gte: lo, lte: hi}}})`
(lines 115-122). -/
def countOrdersBetween : List Order → Int → Int → Nat
  | [], _, _ => 0
  | o :: rest, lo, hi =>
      (if lo ≤ o.createdAt ∧ o.createdAt ≤ hi then 1 else 0) +
        countOrdersBetween rest lo hi

/-- Count of orders created on local calendar day `day` (spec-side view
of the same window: `day` is the floor of local milliseconds by a full
day). -/
def countOrdersOnLocalDay : List Order → Int → Int → Nat
  | [], _, _ => 0
  | o :: rest, tz, day =>
      (if (o.createdAt + tz) / msPerDay = day then 1 else 0) +
        countOrdersOnLocalDay rest tz day

/-- The local calendar day (days since epoch, local clock) containing a
moment. -/
def localDayOf (now : Moment) : Int :=
  (now.utcMillis + now.tzOffsetMillis) / msPerDay

/-- generateOrderNumber (lines 106-130): UTC date string from
`toISOString`, count window from local `setHours(0,0,0,0)` /
`setHours(23,59,59,999)` bounds. -/
def generateOrderNumber (orders : List Order) (now : Moment) : String :=
  let dateStr := isoDateStr now.utcMillis
  let todayStart := localDayOf now * msPerDay - now.tzOffsetMillis
  let todayEnd := todayStart + (msPerDay - 1)
  let todayOrdersCount := countOrdersBetween orders todayStart todayEnd
  dateStr ++ "-" ++ padZero (toString (todayOrdersCount + 1)) 3

/-- Modelled from the spec for comparison with `generateOrderNumber`
(refinement check only, not code): "produce a string YYYYMMDD-NNN where
YYYYMMDD is that moment's calendar date and NNN is a zero-padded
(width 3) 1-based sequence counting orders already created on that
calendar day, scoped to the local/service timezone's midnight-to-
midnight window" — so both the date string and the window use the local
calendar day. -/
def claimedOrderNumber (orders : List Order) (now : Moment) : String :=
  isoDateStr (now.utcMillis + now.tzOffsetMillis) ++ "-" ++
    padZero (toString (countOrdersOnLocalDay orders now.tzOffsetMillis (localDayOf now) + 1)) 3

/-! ## SubmitOrder: the `new_order` handler (part_000 lines 250-362) -/

/-- Item resolution inside `orderCreate.items.create` (lines 271-291):
each cart line's product is looked up by id; a missing product throws
`Produit non trouvé` before anything is written. -/
def resolveItems (ps : List Product) : List CartLine → Except String (List OrderItem)
  | [] => .ok []
  | l :: rest =>
      match findProduct ps l.id with
      | none => .error ("Produit non trouvé: " ++ l.id)
      | some p =>
          match resolveItems ps rest with
          | .error msg => .error msg
          | .ok items => .ok ({ productId := p.id, quantity := jsQuantity l.quantity } :: items)

/-- The `new_order` handler: generates the number, resolves the cart,
then performs the single atomic `prisma.order.create` with status NEW,
isPaid false, the items, and one initial history entry. An `.error`
result models the handler throwing before the create. -/
def new_order (s : ServerState) (now : Moment) (od : NewOrderData) : Except String ServerState :=
  let number := generateOrderNumber s.orders now
  let paymentMethod := mapPaymentMethod od.paiement
  match resolveItems s.products od.panier with
  | .error msg => .error msg
  | .ok items =>
      let order : Order :=
        { id := "order" ++ toString s.orders.length
          number := number
          customerName := od.nom
          paymentMethod := paymentMethod
          status := .NEW
          isPaid := false
          items := items
          history := [{ status := .NEW, note := "Commande créée" }]
          createdAt := now.utcMillis }
      .ok { s with orders := s.orders ++ [order] }

/-! ## Inventory adjusters (part_000 lines 148-221) -/

/-- Inner guard of updateProductStock (line 151): only when the order is
paid AND in PREPARING. -/
def shouldDecrement (order : Order) : Prop :=
  order.isPaid = true ∧ order.status = .PREPARING

instance (order : Order) : Decidable (shouldDecrement order) :=
  inferInstanceAs (Decidable (_ ∧ _))

/-- One `prisma.product.update` of the decrement loop (lines 161-176):
the stock decrement is applied to the live row, while the recomputed
availability uses the product state snapshotted when the order items
were fetched (`item.product.stock`). A `none` snapshot (product row
deleted between fetch and update, impossible in reachable states) would
make Prisma throw; it is modelled as leaving the table unchanged. -/
def applyDecItem (ps : List Product) : OrderItem × Option Product → List Product
  | (it, some snap) =>
      ps.map fun p =>
        if p.id = it.productId then
          { p with stock := p.stock - it.quantity
                   isAvailable := decide (snap.stock - it.quantity > 0) }
        else p
  | (_, none) => ps

/-- updateProductStock (lines 149-178): fetch the order's items with
their products included, then decrement each product's stock. -/
def updateProductStock (ps : List Product) (order : Order) : List Product :=
  if shouldDecrement order then
    (order.items.map fun it => (it, findProduct ps it.productId)).foldl applyDecItem ps
  else ps

/-- Inner guard of restoreProductStock (lines 188-192). -/
def shouldRestore (order : Order) (previousStatus : OrderStatus) : Prop :=
  (previousStatus = .PREPARING ∧ order.status = .CANCELLED) ∨
  (previousStatus = .PREPARING ∧ order.status = .PREPARING ∧ order.isPaid = false)

instance (order : Order) (previousStatus : OrderStatus) :
    Decidable (shouldRestore order previousStatus) :=
  inferInstanceAs (Decidable (_ ∨ _))

/-- One `prisma.product.update` of the restore loop (lines 204-214):
increment stock, force `isAvailable := true`. -/
def applyResItem (ps : List Product) (it : OrderItem) : List Product :=
  ps.map fun p =>
    if p.id = it.productId then
      { p with stock := p.stock + it.quantity, isAvailable := true }
    else p

/-- restoreProductStock (lines 181-221). -/
def restoreProductStock (ps : List Product) (order : Order)
    (previousStatus : OrderStatus) : List Product :=
  if shouldRestore order previousStatus then order.items.foldl applyResItem ps
  else ps

/-! ## TransitionOrder: the `update_order_status` handler (lines 365-519) -/

/-- Outer decrement trigger (lines 431-434): `(data.status ===
"PREPARING" && updatedOrder.isPaid) || (previousStatus === "PREPARING"
&& data.isPaid === true)`. -/
def decTrigger (d : UpdateData) (previousStatus : OrderStatus) (updated : Order) : Prop :=
  (d.status = some .PREPARING ∧ updated.isPaid = true) ∨
  (previousStatus = .PREPARING ∧ d.isPaid = some true)

instance (d : UpdateData) (p : OrderStatus) (u : Order) : Decidable (decTrigger d p u) :=
  inferInstanceAs (Decidable (_ ∨ _))

/-- Outer restore trigger (lines 439-444). -/
def resTrigger (d : UpdateData) (previousStatus : OrderStatus) (previousIsPaid : Bool) : Prop :=
  (previousStatus = .PREPARING ∧ d.status = some .CANCELLED) ∨
  (previousStatus = .PREPARING ∧ previousIsPaid = true ∧ d.isPaid = some false)

instance (d : UpdateData) (p : OrderStatus) (b : Bool) : Decidable (resTrigger d p b) :=
  inferInstanceAs (Decidable (_ ∨ _))

/-- The auto-generated history note (line 402):
`Statut modifié de ${previousStatus} à ${data.status}`. -/
def autoNote (prev next : OrderStatus) : String :=
  "Statut modifié de " ++ statusText prev ++ " à " ++ statusText next

/-- `historyCreate` (lines 395-406): one entry when a status was
supplied (all enum statuses are truthy strings), none otherwise. -/
def historyFor (ord : Order) (d : UpdateData) : List HistoryEntry :=
  match d.status with
  | some st => [{ status := st, note := jsOr d.note (autoNote ord.status st) }]
  | none => []

/-- The `prisma.order.update` payload (lines 388-414): partial update of
status/isPaid plus the appended history entry. -/
def applyUpdate (ord : Order) (d : UpdateData) : Order :=
  { ord with
      status := d.status.getD ord.status
      isPaid := d.isPaid.getD ord.isPaid
      history := ord.history ++ historyFor ord d }

/-- Body of the `update_order_status` handler once the order was loaded
(lines 385-446): apply the partial update with history, then run the
two inventory triggers in order (decrement, then restore). -/
def transitionResult (s : ServerState) (d : UpdateData) (currentOrder : Order) : ServerState :=
  let updatedOrder := applyUpdate currentOrder d
  let orders2 := s.orders.map fun o => if o.id = d.orderId then updatedOrder else o
  let ps1 := if decTrigger d currentOrder.status updatedOrder then
               updateProductStock s.products updatedOrder
             else s.products
  let ps2 := if resTrigger d currentOrder.status currentOrder.isPaid then
               restoreProductStock ps1 updatedOrder currentOrder.status
             else ps1
  { products := ps2, orders := orders2 }

/-- The `update_order_status` handler: load the order (throw when
absent), then run `transitionResult`. -/
def update_order_status (s : ServerState) (d : UpdateData) : Except String ServerState :=
  match findOrder s.orders d.orderId with
  | none => .error ("Commande non trouvée: " ++ d.orderId)
  | some currentOrder => .ok (transitionResult s d currentOrder)

/-- Decrement actually changes stock on a call exactly when the outer
trigger and updateProductStock's inner guard both hold. -/
def decEffective (ord : Order) (d : UpdateData) : Prop :=
  decTrigger d ord.status (applyUpdate ord d) ∧ shouldDecrement (applyUpdate ord d)

instance (ord : Order) (d : UpdateData) : Decidable (decEffective ord d) :=
  inferInstanceAs (Decidable (_ ∧ _))

/-- Restore actually changes stock on a call exactly when the outer
trigger and restoreProductStock's inner guard both hold. -/
def resEffective (ord : Order) (d : UpdateData) : Prop :=
  resTrigger d ord.status ord.isPaid ∧ shouldRestore (applyUpdate ord d) ord.status

instance (ord : Order) (d : UpdateData) : Decidable (resEffective ord d) :=
  inferInstanceAs (Decidable (_ ∧ _))

/-! ## Sequences of operations -/

/-- One inbound socket event hitting the core. -/
inductive Op where
  | submit (now : Moment) (od : NewOrderData)
  | transition (d : UpdateData)

/-- Event-loop step: handler errors are caught at the boundary (the
`catch` blocks emit an error event) and leave the store untouched. -/
def step (s : ServerState) : Op → ServerState
  | .submit now od =>
      match new_order s now od with
      | .ok s' => s'
      | .error _ => s
  | .transition d =>
      match update_order_status s d with
      | .ok s' => s'
      | .error _ => s

/-- A whole sequence of inbound events. -/
def run (s : ServerState) (ops : List Op) : ServerState :=
  ops.foldl step s

/-! ## Concrete fixtures used by the closed theorems -/

/-- A fresh NEW, unpaid order for product "p1" (quantity 2). -/
def ordF1 : Order :=
  { id := "o1", number := "19700101-001", customerName := "alice",
    paymentMethod := .CARD, status := .NEW, isPaid := false,
    items := [{ productId := "p1", quantity := 2 }],
    history := [{ status := .NEW, note := "Commande créée" }], createdAt := 0 }

def stateF1 : ServerState :=
  { products := [{ id := "p1", stock := 5, isAvailable := true }], orders := [ordF1] }

/-- Transition o1 to PREPARING and paid, then re-send PREPARING. -/
def opsF1 : List Op :=
  [.transition { orderId := "o1", status := some .PREPARING, isPaid := some true, note := none },
   .transition { orderId := "o1", status := some .PREPARING, isPaid := none, note := none }]

def opsF1a : List Op :=
  [.transition { orderId := "o1", status := some .PREPARING, isPaid := some true, note := none }]

/-- An order already PREPARING and paid, for product "p2" (quantity 2). -/
def ordF2 : Order :=
  { id := "o2", number := "19700101-002", customerName := "bea",
    paymentMethod := .CASH, status := .PREPARING, isPaid := true,
    items := [{ productId := "p2", quantity := 2 }],
    history := [{ status := .NEW, note := "Commande créée" }], createdAt := 0 }

def stateF2 : ServerState :=
  { products := [{ id := "p2", stock := 5, isAvailable := true }], orders := [ordF2] }

/-- Re-supply isPaid=true on the already-paid PREPARING order. -/
def dF2 : UpdateData := { orderId := "o2", status := none, isPaid := some true, note := none }

/-- An order already PREPARING and paid, for product "p3" (quantity 2). -/
def ordF3 : Order :=
  { id := "o3", number := "19700101-003", customerName := "carl",
    paymentMethod := .PAYPAL, status := .PREPARING, isPaid := true,
    items := [{ productId := "p3", quantity := 2 }],
    history := [{ status := .NEW, note := "Commande créée" }], createdAt := 0 }

def stateF3 : ServerState :=
  { products := [{ id := "p3", stock := 5, isAvailable := true }], orders := [ordF3] }

/-- Unpay the order while moving it to READY in the same call. -/
def dF3 : UpdateData := { orderId := "o3", status := some .READY, isPaid := some false, note := none }

/-- Cancel the PREPARING order o3 (restore does fire here). -/
def dF3c : UpdateData := { orderId := "o3", status := some .CANCELLED, isPaid := none, note := none }

/-- Stock 1, but the submitted cart asks for quantity 2. -/
def stateF5 : ServerState :=
  { products := [{ id := "p5", stock := 1, isAvailable := true }], orders := [] }

def odF5 : NewOrderData :=
  { nom := "bob", paiement := "CB", panier := [{ id := "p5", quantity := some 2 }] }

def opsF5 : List Op :=
  [.submit { utcMillis := 0, tzOffsetMillis := 0 } odF5,
   .transition { orderId := "order0", status := some .PREPARING, isPaid := some true, note := none }]

/-- A PREPARING, paid order used for the C5 witness. -/
def ordF5w : Order :=
  { id := "o5", number := "19700101-004", customerName := "dora",
    paymentMethod := .CARD, status := .PREPARING, isPaid := true,
    items := [{ productId := "p5", quantity := 2 }],
    history := [{ status := .NEW, note := "Commande créée" }], createdAt := 0 }

/-- A COMPLETED (terminal) order. -/
def ordF6 : Order :=
  { id := "o6", number := "19700101-005", customerName := "eve",
    paymentMethod := .CASH, status := .COMPLETED, isPaid := true,
    items := [], history := [{ status := .NEW, note := "Commande créée" }], createdAt := 0 }

def stateF6 : ServerState := { products := [], orders := [ordF6] }

/-- Drag the COMPLETED order back to NEW and unpaid. -/
def dF6 : UpdateData := { orderId := "o6", status := some .NEW, isPaid := some false, note := none }

/-- One resolvable product and a two-line cart for the C7 witness. -/
def stateF7 : ServerState :=
  { products := [{ id := "p7", stock := 9, isAvailable := true },
                 { id := "q7", stock := 3, isAvailable := true }], orders := [] }

def odF7 : NewOrderData :=
  { nom := "finn", paiement := "paypal",
    panier := [{ id := "p7", quantity := some 3 }, { id := "q7", quantity := none }] }

/-- 23:00 UTC on 1970-01-01 in a UTC+2 timezone: the local calendar day
is already 1970-01-02. -/
def momentF8 : Moment := { utcMillis := 82800000, tzOffsetMillis := 7200000 }

/-- A NEW unpaid order for the C9 history theorems. -/
def ordF9 : Order :=
  { id := "o9", number := "19700101-006", customerName := "gil",
    paymentMethod := .CARD, status := .NEW, isPaid := false,
    items := [], history := [{ status := .NEW, note := "Commande créée" }], createdAt := 0 }

def stateF9 : ServerState := { products := [], orders := [ordF9] }

/-- Move o9 to PREPARING without a caller note. -/
def dF9 : UpdateData := { orderId := "o9", status := some .PREPARING, isPaid := none, note := none }

/-- A cart line explicitly requesting quantity 0. -/
def stateF10 : ServerState :=
  { products := [{ id := "pX", stock := 4, isAvailable := true }], orders := [] }

def odF10 : NewOrderData :=
  { nom := "hana", paiement := "cash", panier := [{ id := "pX", quantity := some 0 }] }

/-! ## Helper lemmas: lookups through the per-row update maps -/

theorem findProduct_some_id (ps : List Product) (pid : String) (p : Product)
    (h : findProduct ps pid = some p) : p.id = pid := by
  induction ps with
  | nil => simp [findProduct] at h
  | cons q rest ih =>
    by_cases hq : q.id = pid
    · simp [findProduct, hq] at h; rw [← h]; exact hq
    · simp [findProduct, hq] at h; exact ih h

theorem findOrder_some_id (os : List Order) (oid : String) (o : Order)
    (h : findOrder os oid = some o) : o.id = oid := by
  induction os with
  | nil => simp [findOrder] at h
  | cons q rest ih =>
    by_cases hq : q.id = oid
    · simp [findOrder, hq] at h; rw [← h]; exact hq
    · simp [findOrder, hq] at h; exact ih h

theorem findProduct_map (ps : List Product) (f : Product → Product)
    (hf : ∀ p, (f p).id = p.id) (pid : String) :
    findProduct (ps.map f) pid = (findProduct ps pid).map f := by
  induction ps with
  | nil => rfl
  | cons p rest ih =>
    by_cases h : p.id = pid
    · simp [findProduct, hf, h]
    · simp [findProduct, hf, h, ih]

theorem findOrder_map_replace (os : List Order) (oid : String) (ord u : Order)
    (hfind : findOrder os oid = some ord) (hu : u.id = ord.id) :
    findOrder (os.map fun o => if o.id = oid then u else o) oid = some u := by
  induction os with
  | nil => simp [findOrder] at hfind
  | cons o rest ih =>
    by_cases h : o.id = oid
    · have hid : ord.id = oid := findOrder_some_id _ _ _ hfind
      simp [findOrder, h, hu, hid]
    · simp [findOrder, h] at hfind ⊢
      exact ih hfind

/-- The stock delta of a single decrement-loop iteration. -/
theorem stockOf_applyDecItem (ps : List Product) (it : OrderItem) (snap : Product)
    (pid : String) :
    stockOf (applyDecItem ps (it, some snap)) pid =
      (stockOf ps pid).map (fun st => st - (if it.productId = pid then it.quantity else 0)) := by
  unfold stockOf applyDecItem
  rw [findProduct_map]
  · cases hf : findProduct ps pid with
    | none => rfl
    | some q =>
      have hq : q.id = pid := findProduct_some_id _ _ _ hf
      by_cases h : it.productId = pid
      · simp [Option.map, hq, h]
      · have : ¬ q.id = it.productId := by rw [hq]; exact fun he => h he.symm
        simp [Option.map, this, h]
  · intro p; by_cases h : p.id = it.productId <;> simp [h]

/-- The stock delta of the whole decrement loop, provided every snapshot
was found (foreign-key integrity of the items). -/
theorem stockOf_foldl_dec (L : List (OrderItem × Option Product)) (ps : List Product)
    (pid : String) (h : ∀ e ∈ L, e.2.isSome = true) :
    stockOf (L.foldl applyDecItem ps) pid =
      (stockOf ps pid).map (fun st => st - totalQty (L.map Prod.fst) pid) := by
  induction L generalizing ps with
  | nil =>
    cases hf : stockOf ps pid <;> simp [totalQty, hf]
  | cons e rest ih =>
    obtain ⟨it, snap⟩ := e
    cases snap with
    | none => exact absurd (h (it, none) (by simp)) (by simp)
    | some sn =>
      rw [List.foldl_cons, ih _ (fun e he => h e (by simp [he])), stockOf_applyDecItem]
      cases hf : stockOf ps pid with
      | none => rfl
      | some st =>
        by_cases hit : it.productId = pid <;> simp [totalQty, hit] <;> omega

theorem stockOf_updateProductStock (ps : List Product) (order : Order) (pid : String)
    (hfk : ∀ it ∈ order.items, (findProduct ps it.productId).isSome = true) :
    stockOf (updateProductStock ps order) pid =
      (stockOf ps pid).map
        (fun st => st - (if shouldDecrement order then totalQty order.items pid else 0)) := by
  unfold updateProductStock
  by_cases hg : shouldDecrement order
  · rw [if_pos hg, stockOf_foldl_dec]
    · have hmap : (Prod.fst ∘ fun it : OrderItem => (it, findProduct ps it.productId)) =
        fun it => it := rfl
      simp [hg, hmap]
    · intro e he
      simp only [List.mem_map] at he
      obtain ⟨it, hit, rfl⟩ := he
      exact hfk it hit
  · rw [if_neg hg]
    cases hf : stockOf ps pid <;> simp [hg, hf]

/-- The stock delta of a single restore-loop iteration. -/
theorem stockOf_applyResItem (ps : List Product) (it : OrderItem) (pid : String) :
    stockOf (applyResItem ps it) pid =
      (stockOf ps pid).map (fun st => st + (if it.productId = pid then it.quantity else 0)) := by
  unfold stockOf applyResItem
  rw [findProduct_map]
  · cases hf : findProduct ps pid with
    | none => rfl
    | some q =>
      have hq : q.id = pid := findProduct_some_id _ _ _ hf
      by_cases h : it.productId = pid
      · simp [Option.map, hq, h]
      · have : ¬ q.id = it.productId := by rw [hq]; exact fun he => h he.symm
        simp [Option.map, this, h]
  · intro p; by_cases h : p.id = it.productId <;> simp [h]

theorem stockOf_foldl_res (L : List OrderItem) (ps : List Product) (pid : String) :
    stockOf (L.foldl applyResItem ps) pid =
      (stockOf ps pid).map (fun st => st + totalQty L pid) := by
  induction L generalizing ps with
  | nil => cases hf : stockOf ps pid <;> simp [totalQty, hf]
  | cons it rest ih =>
    rw [List.foldl_cons, ih, stockOf_applyResItem]
    cases hf : stockOf ps pid with
    | none => rfl
    | some st =>
      by_cases hit : it.productId = pid <;> simp [totalQty, hit] <;> omega

theorem stockOf_restoreProductStock (ps : List Product) (order : Order)
    (previousStatus : OrderStatus) (pid : String) :
    stockOf (restoreProductStock ps order previousStatus) pid =
      (stockOf ps pid).map
        (fun st => st + (if shouldRestore order previousStatus then totalQty order.items pid else 0)) := by
  unfold restoreProductStock
  by_cases hg : shouldRestore order previousStatus
  · rw [if_pos hg, stockOf_foldl_res]; simp [hg]
  · rw [if_neg hg]
    cases hf : stockOf ps pid <;> simp [hg, hf]

/-- A restore iteration for a different product leaves a row's
availability flag alone. -/
theorem availOf_applyResItem_other (ps : List Product) (it : OrderItem) (pid : String)
    (h : it.productId ≠ pid) :
    availOf (applyResItem ps it) pid = availOf ps pid := by
  unfold availOf applyResItem
  rw [findProduct_map]
  · cases hf : findProduct ps pid with
    | none => rfl
    | some q =>
      have hq : q.id = pid := findProduct_some_id _ _ _ hf
      have : ¬ q.id = it.productId := by rw [hq]; exact fun he => h he.symm
      simp [Option.map, this]
  · intro p; by_cases hp : p.id = it.productId <;> simp [hp]

/-- A restore iteration for this product forces its availability to
true. -/
theorem availOf_applyResItem_hit (ps : List Product) (it : OrderItem) (pid : String)
    (h : it.productId = pid) :
    availOf (applyResItem ps it) pid = (availOf ps pid).map (fun _ => true) := by
  unfold availOf applyResItem
  rw [findProduct_map]
  · cases hf : findProduct ps pid with
    | none => rfl
    | some q =>
      have hq : q.id = pid := findProduct_some_id _ _ _ hf
      have : q.id = it.productId := by rw [hq, h]
      simp [Option.map, this]
  · intro p; by_cases hp : p.id = it.productId <;> simp [hp]

/-- The restore loop never clears an availability flag it has set. -/
theorem availOf_foldl_res_true (L : List OrderItem) (ps : List Product) (pid : String)
    (h : availOf ps pid = some true) :
    availOf (L.foldl applyResItem ps) pid = some true := by
  induction L generalizing ps with
  | nil => exact h
  | cons it rest ih =>
    rw [List.foldl_cons]
    apply ih
    by_cases hit : it.productId = pid
    · rw [availOf_applyResItem_hit _ _ _ hit, h]; rfl
    · rw [availOf_applyResItem_other _ _ _ hit]; exact h

/-- After the restore loop, every product referenced by some processed
item is available. -/
theorem availOf_foldl_res_ref : ∀ (L : List OrderItem) (ps : List Product) (pid : String),
    (∃ it ∈ L, it.productId = pid) → (availOf ps pid).isSome = true →
    availOf (L.foldl applyResItem ps) pid = some true := by
  intro L
  induction L with
  | nil => intro ps pid href _; simp at href
  | cons it rest ih =>
    intro ps pid href hsome
    rw [List.foldl_cons]
    by_cases hit : it.productId = pid
    · apply availOf_foldl_res_true
      rw [availOf_applyResItem_hit _ _ _ hit]
      cases hf : availOf ps pid with
      | none => rw [hf] at hsome; simp at hsome
      | some b => rfl
    · obtain ⟨jt, hjt, hj⟩ := href
      rcases List.mem_cons.mp hjt with h1 | h2
      · exact absurd (h1 ▸ hj) hit
      · exact ih _ _ ⟨jt, h2, hj⟩
          (by rw [availOf_applyResItem_other _ _ _ hit]; exact hsome)

/-- updateProductStock is the identity when its inner guard fails. -/
theorem updateProductStock_not_dec (ps : List Product) (order : Order)
    (h : ¬ shouldDecrement order) : updateProductStock ps order = ps := by
  unfold updateProductStock; rw [if_neg h]

/-! ## The transition as a whole -/

theorem update_order_status_eq (s : ServerState) (d : UpdateData) (ord : Order)
    (hfind : findOrder s.orders d.orderId = some ord) :
    update_order_status s d = .ok (transitionResult s d ord) := by
  unfold update_order_status
  rw [hfind]

theorem findOrder_transitionResult (s : ServerState) (d : UpdateData) (ord : Order)
    (hfind : findOrder s.orders d.orderId = some ord) :
    findOrder (transitionResult s d ord).orders d.orderId = some (applyUpdate ord d) := by
  simp only [transitionResult]
  exact findOrder_map_replace s.orders d.orderId ord (applyUpdate ord d) hfind rfl

/-- The net stock effect of one TransitionOrder call on every product
id: subtract the order's total quantity when the decrement is
effective, add it when the restore is effective. -/
theorem stockOf_transitionResult (s : ServerState) (d : UpdateData) (ord : Order) (pid : String)
    (hfk : ∀ it ∈ ord.items, (findProduct s.products it.productId).isSome = true) :
    stockOf (transitionResult s d ord).products pid =
      (stockOf s.products pid).map (fun st =>
        st - (if decEffective ord d then totalQty ord.items pid else 0)
           + (if resEffective ord d then totalQty ord.items pid else 0)) := by
  have hitems : (applyUpdate ord d).items = ord.items := rfl
  have h1 : stockOf (if decTrigger d ord.status (applyUpdate ord d) then
        updateProductStock s.products (applyUpdate ord d) else s.products) pid =
      (stockOf s.products pid).map
        (fun st => st - (if decEffective ord d then totalQty ord.items pid else 0)) := by
    by_cases hdec : decTrigger d ord.status (applyUpdate ord d)
    · rw [if_pos hdec, stockOf_updateProductStock _ _ _ (by rw [hitems]; exact hfk), hitems]
      cases hb : stockOf s.products pid with
      | none => rfl
      | some st =>
        by_cases hsd : shouldDecrement (applyUpdate ord d)
        · have hde : decEffective ord d := ⟨hdec, hsd⟩
          simp [hsd, hde]
        · have hde : ¬ decEffective ord d := fun h => hsd h.2
          simp [hsd, hde]
    · rw [if_neg hdec]
      have hde : ¬ decEffective ord d := fun h => hdec h.1
      cases hb : stockOf s.products pid <;> simp [hde, hb]
  have h2 : ∀ ps' : List Product, stockOf (if resTrigger d ord.status ord.isPaid then
        restoreProductStock ps' (applyUpdate ord d) ord.status else ps') pid =
      (stockOf ps' pid).map
        (fun st => st + (if resEffective ord d then totalQty ord.items pid else 0)) := by
    intro ps'
    by_cases hres : resTrigger d ord.status ord.isPaid
    · rw [if_pos hres, stockOf_restoreProductStock, hitems]
      cases hb : stockOf ps' pid with
      | none => rfl
      | some st =>
        by_cases hsr : shouldRestore (applyUpdate ord d) ord.status
        · have hre : resEffective ord d := ⟨hres, hsr⟩
          simp [hsr, hre]
        · have hre : ¬ resEffective ord d := fun h => hsr h.2
          simp [hsr, hre]
    · rw [if_neg hres]
      have hre : ¬ resEffective ord d := fun h => hres h.1
      cases hb : stockOf ps' pid <;> simp [hre, hb]
  simp only [transitionResult]
  rw [h2, h1]
  cases hb : stockOf s.products pid <;> simp

/-- When the restore is effective, every product referenced by the
order's items ends the call available. -/
theorem availOf_transitionResult_restored (s : ServerState) (d : UpdateData) (ord : Order)
    (pid : String) (hres : resEffective ord d)
    (href : ∃ it ∈ ord.items, it.productId = pid)
    (hsome : (availOf s.products pid).isSome = true) :
    availOf (transitionResult s d ord).products pid = some true := by
  obtain ⟨hrt, hsr⟩ := hres
  have hnd : ¬ shouldDecrement (applyUpdate ord d) := by
    intro hsd
    obtain ⟨hb, hs⟩ := hsd
    rcases hsr with ⟨_, hc⟩ | ⟨_, _, hp⟩
    · rw [hs] at hc; exact absurd hc (by simp)
    · rw [hb] at hp; exact absurd hp (by simp)
  simp only [transitionResult]
  have hps1 : (if decTrigger d ord.status (applyUpdate ord d) then
      updateProductStock s.products (applyUpdate ord d) else s.products) = s.products := by
    by_cases hdec : decTrigger d ord.status (applyUpdate ord d)
    · rw [if_pos hdec, updateProductStock_not_dec _ _ hnd]
    · rw [if_neg hdec]
  rw [hps1, if_pos hrt]
  unfold restoreProductStock
  rw [if_pos hsr]
  exact availOf_foldl_res_ref _ _ _ href hsome

/-- Exact characterization of when the decrement actually runs: the
outer trigger (lines 431-434) conjoined with the inner guard
(line 151). -/
theorem decEffective_iff (ord : Order) (d : UpdateData) :
    decEffective ord d ↔
      ((d.status = some .PREPARING ∧ d.isPaid.getD ord.isPaid = true) ∨
       (d.status = none ∧ ord.status = .PREPARING ∧ d.isPaid = some true)) := by
  simp only [decEffective, decTrigger, shouldDecrement, applyUpdate]
  rcases d with ⟨oid, dst, dip, dn⟩
  rcases dst with _ | st <;> rcases dip with _ | b <;>
    simp [Option.getD] <;> tauto

/-- Exact characterization of when the restore actually runs: the outer
trigger (lines 439-444) conjoined with the inner guard (lines
188-192). -/
theorem resEffective_iff (ord : Order) (d : UpdateData) :
    resEffective ord d ↔
      (ord.status = .PREPARING ∧
        (d.status = some .CANCELLED ∨
         (ord.isPaid = true ∧ d.isPaid = some false ∧
          (d.status = none ∨ d.status = some .PREPARING)))) := by
  simp only [resEffective, resTrigger, shouldRestore, applyUpdate]
  rcases d with ⟨oid, dst, dip, dn⟩
  rcases dst with _ | st <;> rcases dip with _ | b <;>
    simp [Option.getD] <;> tauto

/-- The two effective inventory effects can never fire on the same
call. -/
theorem decEffective_resEffective_never (ord : Order) (d : UpdateData) :
    ¬ (decEffective ord d ∧ resEffective ord d) := by
  rintro ⟨⟨_, hpaid, hst⟩, _, hres⟩
  rcases hres with ⟨_, hc⟩ | ⟨_, _, hp⟩
  · rw [hst] at hc; exact absurd hc (by simp)
  · rw [hpaid] at hp; exact absurd hp (by simp)

/-! ## SubmitOrder lemmas -/

/-- Resolution fails exactly on the first unresolvable line; here: if
some line is unresolvable, the whole resolution errors. -/
theorem resolveItems_error (ps : List Product) :
    ∀ (panier : List CartLine), (∃ l ∈ panier, findProduct ps l.id = none) →
    ∃ msg, resolveItems ps panier = .error msg := by
  intro panier
  induction panier with
  | nil => intro h; simp at h
  | cons l rest ih =>
    intro h
    cases hf : findProduct ps l.id with
    | none => exact ⟨"Produit non trouvé: " ++ l.id, by simp [resolveItems, hf]⟩
    | some p =>
      obtain ⟨j, hj, hjn⟩ := h
      rcases List.mem_cons.mp hj with h1 | h2
      · rw [h1] at hjn; rw [hf] at hjn; exact absurd hjn (by simp)
      · obtain ⟨msg, hmsg⟩ := ih ⟨j, h2, hjn⟩
        exact ⟨msg, by simp [resolveItems, hf, hmsg]⟩

/-- Resolution succeeds when every line resolves, producing one item
per cart line whose quantity is the JS-truthy quantity of the line. -/
theorem resolveItems_ok (ps : List Product) :
    ∀ (panier : List CartLine), (∀ l ∈ panier, (findProduct ps l.id).isSome = true) →
    ∃ items, resolveItems ps panier = .ok items ∧
      items.length = panier.length ∧
      ∀ (i : Nat) (l : CartLine), panier[i]? = some l →
        ∃ itm : OrderItem, items[i]? = some itm ∧ itm.quantity = jsQuantity l.quantity := by
  intro panier
  induction panier with
  | nil =>
    intro _
    exact ⟨[], rfl, rfl, by intro i l h; simp at h⟩
  | cons l rest ih =>
    intro h
    have hl : (findProduct ps l.id).isSome = true := h l (by simp)
    cases hf : findProduct ps l.id with
    | none => rw [hf] at hl; simp at hl
    | some p =>
      obtain ⟨items, hok, hlen, hpt⟩ := ih (fun j hj => h j (by simp [hj]))
      refine ⟨{ productId := p.id, quantity := jsQuantity l.quantity } :: items,
        by simp [resolveItems, hf, hok], by simp [hlen], ?_⟩
      intro i j hj
      cases i with
      | zero =>
        simp only [List.getElem?_cons_zero, Option.some.injEq] at hj
        exact ⟨{ productId := p.id, quantity := jsQuantity l.quantity }, by simp,
          by rw [← hj]⟩
      | succ i =>
        simp only [List.getElem?_cons_succ] at hj ⊢
        exact hpt i j hj

/-- Full shape of a successful submission: the state gains exactly one
order, NEW and unpaid, with one item per cart line (JS-truthy
quantities) and exactly one initial history entry. -/
theorem new_order_ok (s : ServerState) (now : Moment) (od : NewOrderData)
    (h : ∀ l ∈ od.panier, (findProduct s.products l.id).isSome = true) :
    ∃ o : Order, new_order s now od = .ok { s with orders := s.orders ++ [o] } ∧
      o.status = .NEW ∧ o.isPaid = false ∧
      o.items.length = od.panier.length ∧
      o.history = [{ status := .NEW, note := "Commande créée" }] ∧
      ∀ (i : Nat) (l : CartLine), od.panier[i]? = some l →
        ∃ itm : OrderItem, o.items[i]? = some itm ∧ itm.quantity = jsQuantity l.quantity := by
  obtain ⟨items, hok, hlen, hpt⟩ := resolveItems_ok s.products od.panier h
  refine ⟨{ id := "order" ++ toString s.orders.length
            number := generateOrderNumber s.orders now
            customerName := od.nom
            paymentMethod := mapPaymentMethod od.paiement
            status := .NEW
            isPaid := false
            items := items
            history := [{ status := .NEW, note := "Commande créée" }]
            createdAt := now.utcMillis }, ?_, rfl, rfl, hlen, rfl, hpt⟩
  simp [new_order, hok]

/-- A submission with an unresolvable cart line throws before the
single `prisma.order.create`, so the event leaves the store
untouched. -/
theorem new_order_error (s : ServerState) (now : Moment) (od : NewOrderData)
    (h : ∃ l ∈ od.panier, findProduct s.products l.id = none) :
    (∃ msg, new_order s now od = .error msg) ∧ step s (.submit now od) = s := by
  obtain ⟨msg, hmsg⟩ := resolveItems_error s.products od.panier h
  have he : new_order s now od = .error msg := by
    simp [new_order, hmsg]
  exact ⟨⟨msg, he⟩, by simp [step, he]⟩

/-- The Prisma inclusive count window [local midnight, local midnight +
86399999 ms] holds an order's `createdAt` exactly when that timestamp
falls on the same local calendar day. -/
theorem countOrdersBetween_localDay (orders : List Order) (tz D : Int) :
    countOrdersBetween orders (D * msPerDay - tz) (D * msPerDay - tz + (msPerDay - 1)) =
      countOrdersOnLocalDay orders tz D := by
  induction orders with
  | nil => rfl
  | cons o rest ih =>
    simp only [countOrdersBetween, countOrdersOnLocalDay, ih]
    congr 1
    have hiff : (D * msPerDay - tz ≤ o.createdAt ∧
        o.createdAt ≤ D * msPerDay - tz + (msPerDay - 1)) ↔
        (o.createdAt + tz) / msPerDay = D := by
      unfold msPerDay
      omega
    rw [if_congr hiff rfl rfl]

/-- Whenever resolution succeeded, item i corresponds to cart line i
with the JS-truthy quantity. -/
theorem resolveItems_pointwise (ps : List Product) :
    ∀ (panier : List CartLine) (items : List OrderItem),
    resolveItems ps panier = .ok items →
    ∀ (i : Nat) (l : CartLine), panier[i]? = some l →
      ∃ itm : OrderItem, items[i]? = some itm ∧ itm.quantity = jsQuantity l.quantity := by
  intro panier
  induction panier with
  | nil => intro items h i l hl; simp at hl
  | cons c rest ih =>
    intro items h i l hl
    cases hf : findProduct ps c.id with
    | none => simp [resolveItems, hf] at h
    | some p =>
      cases hr : resolveItems ps rest with
      | error msg => simp [resolveItems, hf, hr] at h
      | ok items' =>
        simp only [resolveItems, hf, hr, Except.ok.injEq] at h
        cases i with
        | zero =>
          simp only [List.getElem?_cons_zero, Option.some.injEq] at hl
          refine ⟨{ productId := p.id, quantity := jsQuantity c.quantity }, ?_, by rw [hl]⟩
          rw [← h]; simp
        | succ i =>
          simp only [List.getElem?_cons_succ] at hl
          obtain ⟨itm, h1, h2⟩ := ih items' hr i l hl
          refine ⟨itm, ?_, h2⟩
          rw [← h]; simpa using h1

/-! ## The claims -/

/-- C1: the claim states that for every order and every sequence of
TransitionOrder calls the stock-decrement effect is applied at most
once per order — in particular that a repeated call supplying
status=PREPARING while the order is already PREPARING and paid must not
decrement again. The code violates this: its decrement guard tests
`data.status === "PREPARING"` on the supplied field, not on the
transition edge, so the repeated call below decrements a second time
(stock 5 → 3 after the first qualifying call, → 1 after the repeat,
where the claim requires it to stay 3). -/
theorem C1_second_decrement_applied :
    stockOf (run stateF1 opsF1a).products "p1" = some 3 ∧
    stockOf (run stateF1 opsF1).products "p1" = some 1 := by
  constructor <;> decide

/-- C2 counterexample: with the order already PREPARING and paid,
a call supplying only isPaid=true does not satisfy the claim's trigger
("the call makes isPaid become true" — it already was true), yet the
code decrements anyway: stock drops 5 → 3. -/
theorem C2_counterexample :
    stockOf stateF2.products "p2" = some 5 ∧
    stockOf (step stateF2 (.transition dF2)).products "p2" = some 3 ∧
    ¬ ((dF2.status = some .PREPARING ∧ dF2.isPaid.getD ordF2.isPaid = true) ∨
       (ordF2.status = .PREPARING ∧ ordF2.isPaid = false ∧ dF2.isPaid = some true)) := by
  refine ⟨by decide, by decide, ?_⟩
  decide

/-- C2 (amended): the decrement runs exactly when the resulting order
is PREPARING and paid and the call either supplied status=PREPARING, or
supplied isPaid=true with no status field while the previous status was
PREPARING; when it runs, each product's stock drops by the total
quantity of the order's items referencing it, and a call on which it
does not run never lowers any stock (the only other change is the
restore's increment). -/
theorem C2_decrement_trigger_exact (s : ServerState) (d : UpdateData) (ord : Order)
    (hfind : findOrder s.orders d.orderId = some ord)
    (hfk : ∀ it ∈ ord.items, (findProduct s.products it.productId).isSome = true) :
    ∃ s', update_order_status s d = .ok s' ∧
      (decEffective ord d ↔
        ((d.status = some .PREPARING ∧ d.isPaid.getD ord.isPaid = true) ∨
         (d.status = none ∧ ord.status = .PREPARING ∧ d.isPaid = some true))) ∧
      ∀ pid, stockOf s'.products pid =
        (stockOf s.products pid).map (fun st =>
          st - (if decEffective ord d then totalQty ord.items pid else 0)
             + (if resEffective ord d then totalQty ord.items pid else 0)) := by
  exact ⟨transitionResult s d ord, update_order_status_eq s d ord hfind,
    decEffective_iff ord d, fun pid => stockOf_transitionResult s d ord pid hfk⟩

/-- C2 witness: the amended theorem applied to the concrete
already-paid PREPARING order. -/
theorem C2_decrement_trigger_exact_witness :
    ∃ s', update_order_status stateF2 dF2 = .ok s' := by
  obtain ⟨s', h, -, -⟩ :=
    C2_decrement_trigger_exact stateF2 dF2 ordF2 (by decide) (by decide)
  exact ⟨s', h⟩

/-- C3 counterexample: previous status PREPARING, previously paid, and
the call sets isPaid to false — the claim says the restore must fire
and increment stock — but because the same call moves the status to
READY, restoreProductStock's inner guard rejects it and stock stays
5 instead of becoming 7. -/
theorem C3_counterexample :
    (ordF3.status = .PREPARING ∧ ordF3.isPaid = true ∧ dF3.isPaid = some false) ∧
    stockOf stateF3.products "p3" = some 5 ∧
    stockOf (step stateF3 (.transition dF3)).products "p3" = some 5 := by
  refine ⟨by decide, by decide, ?_⟩
  decide

/-- C3 (amended): the restore runs exactly when the previous status was
PREPARING and either the call supplies status=CANCELLED, or the order
was paid, the call supplies isPaid=false, and the status stays
PREPARING (status absent or supplied as PREPARING); when it runs, each
referenced product's stock rises by the total quantity of the order's
items referencing it and its isAvailable is forced to true, and in no
other case does the call raise any stock. -/
theorem C3_restore_trigger_exact (s : ServerState) (d : UpdateData) (ord : Order)
    (hfind : findOrder s.orders d.orderId = some ord)
    (hfk : ∀ it ∈ ord.items, (findProduct s.products it.productId).isSome = true) :
    ∃ s', update_order_status s d = .ok s' ∧
      (resEffective ord d ↔
        (ord.status = .PREPARING ∧
          (d.status = some .CANCELLED ∨
           (ord.isPaid = true ∧ d.isPaid = some false ∧
            (d.status = none ∨ d.status = some .PREPARING))))) ∧
      (∀ pid, stockOf s'.products pid =
        (stockOf s.products pid).map (fun st =>
          st - (if decEffective ord d then totalQty ord.items pid else 0)
             + (if resEffective ord d then totalQty ord.items pid else 0))) ∧
      (resEffective ord d → ∀ pid, (∃ it ∈ ord.items, it.productId = pid) →
        availOf s'.products pid = some true) := by
  refine ⟨transitionResult s d ord, update_order_status_eq s d ord hfind,
    resEffective_iff ord d, fun pid => stockOf_transitionResult s d ord pid hfk, ?_⟩
  intro hre pid href
  obtain ⟨it, hit, hpid⟩ := href
  have hsome : (availOf s.products pid).isSome = true := by
    have := hfk it hit
    rw [hpid] at this
    unfold availOf
    cases hff : findProduct s.products pid with
    | none => rw [hff] at this; simp at this
    | some q => rfl
  exact availOf_transitionResult_restored s d ord pid hre ⟨it, hit, hpid⟩ hsome

/-- C3 witness: the amended theorem applied to cancelling the concrete
PREPARING order. -/
theorem C3_restore_trigger_exact_witness :
    ∃ s', update_order_status stateF3 dF3c = .ok s' := by
  obtain ⟨s', h, -, -, -⟩ :=
    C3_restore_trigger_exact stateF3 dF3c ordF3 (by decide) (by decide)
  exact ⟨s', h⟩

/-- C4: on any single TransitionOrder call the two inventory effects
are mutually exclusive — the effective decrement condition and the
effective restore condition can never hold together, for every previous
order state and every combination of supplied fields. -/
theorem C4_triggers_mutually_exclusive (ord : Order) (d : UpdateData) :
    (decide (decEffective ord d) && decide (resEffective ord d)) = false := by
  by_cases h1 : decEffective ord d
  · by_cases h2 : resEffective ord d
    · exact absurd ⟨h1, h2⟩ (decEffective_resEffective_never ord d)
    · simp [h2]
  · simp [h1]

/-- C5 counterexample: from a store whose only product has stock 1, a
SubmitOrder of quantity 2 followed by the PREPARING+paid transition is
a reachable sequence that drives the stock to −1, refuting the claimed
non-negativity invariant. -/
theorem C5_counterexample :
    stockOf stateF5.products "p5" = some 1 ∧
    stockOf (run stateF5 opsF5).products "p5" = some (-1) := by
  constructor <;> decide

/-- C5 (amended): the decrement performs no sufficiency check — when
its guard holds it subtracts the full ordered quantity from the live
stock, with no lower bound, so a product's stock is an integer that can
become negative (witnessed below at stock 1, quantity 2 → −1). -/
theorem C5_unguarded_decrement (ps : List Product) (order : Order) (pid : String)
    (hfk : ∀ it ∈ order.items, (findProduct ps it.productId).isSome = true) :
    stockOf (updateProductStock ps order) pid =
      (stockOf ps pid).map
        (fun st => st - (if shouldDecrement order then totalQty order.items pid else 0)) :=
  stockOf_updateProductStock ps order pid hfk

/-- C5 witness: the amended theorem evaluated where quantity exceeds
stock, leaving −1. -/
theorem C5_unguarded_decrement_witness :
    stockOf (updateProductStock [{ id := "p5", stock := 1, isAvailable := true }] ordF5w) "p5" =
      some (-1) := by
  rw [C5_unguarded_decrement [{ id := "p5", stock := 1, isAvailable := true }] ordF5w "p5"
    (by decide)]
  decide

/-- C6 counterexample: the claim says a TransitionOrder call that
leaves the NEW → PREPARING → READY → COMPLETED / CANCELLED machine —
such as mutating a COMPLETED order — is rejected; the code accepts it
and applies it, dragging the terminal order back to NEW and unpaid. -/
theorem C6_counterexample :
    ordF6.status = .COMPLETED ∧
    (update_order_status stateF6 dF6).isOk = true ∧
    (findOrder (step stateF6 (.transition dF6)).orders "o6").map Order.status = some .NEW ∧
    (findOrder (step stateF6 (.transition dF6)).orders "o6").map Order.isPaid = some false := by
  refine ⟨by decide, by decide, ?_, ?_⟩ <;> decide

/-- C6 (amended): the handler performs no state-machine validation at
all — for every existing order, any supplied enum status and any
supplied isPaid are applied unconditionally (terminal statuses
included); only an unknown orderId is rejected, and a status string
outside the enum would be rejected by the store layer, not by this
handler. -/
theorem C6_no_transition_validation (s : ServerState) (d : UpdateData) (ord : Order)
    (hfind : findOrder s.orders d.orderId = some ord) :
    ∃ s', update_order_status s d = .ok s' ∧
      findOrder s'.orders d.orderId = some (applyUpdate ord d) ∧
      (applyUpdate ord d).status = d.status.getD ord.status ∧
      (applyUpdate ord d).isPaid = d.isPaid.getD ord.isPaid :=
  ⟨transitionResult s d ord, update_order_status_eq s d ord hfind,
    findOrder_transitionResult s d ord hfind, rfl, rfl⟩

/-- C6 witness: the amended theorem applied to the COMPLETED order. -/
theorem C6_no_transition_validation_witness :
    ∃ s', update_order_status stateF6 dF6 = .ok s' := by
  obtain ⟨s', h, -, -, -⟩ := C6_no_transition_validation stateF6 dF6 ordF6 (by decide)
  exact ⟨s', h⟩

/-- C7: SubmitOrder is all-or-nothing — if every cart line resolves it
persists exactly one new Order (status NEW, isPaid false) with one
OrderItem per cart line and exactly one StatusHistory entry with status
NEW; if any line is unresolvable it throws the product-not-found error
and the event leaves the store untouched. -/
theorem C7_all_or_nothing (s : ServerState) (now : Moment) (od : NewOrderData) :
    ((∀ l ∈ od.panier, (findProduct s.products l.id).isSome = true) →
      ∃ o : Order, new_order s now od = .ok { s with orders := s.orders ++ [o] } ∧
        o.status = .NEW ∧ o.isPaid = false ∧
        o.items.length = od.panier.length ∧
        o.history = [{ status := .NEW, note := "Commande créée" }]) ∧
    ((∃ l ∈ od.panier, findProduct s.products l.id = none) →
      (∃ msg, new_order s now od = .error msg) ∧ step s (.submit now od) = s) := by
  constructor
  · intro h
    obtain ⟨o, h1, h2, h3, h4, h5, -⟩ := new_order_ok s now od h
    exact ⟨o, h1, h2, h3, h4, h5⟩
  · exact new_order_error s now od

/-- C7 witness: the success branch applied to a concrete two-line
cart. -/
theorem C7_all_or_nothing_witness :
    ∃ o : Order, new_order stateF7 { utcMillis := 0, tzOffsetMillis := 0 } odF7 =
        .ok { stateF7 with orders := stateF7.orders ++ [o] } ∧
      o.status = .NEW ∧ o.isPaid = false ∧
      o.items.length = odF7.panier.length ∧
      o.history = [{ status := .NEW, note := "Commande créée" }] :=
  (C7_all_or_nothing stateF7 { utcMillis := 0, tzOffsetMillis := 0 } odF7).1 (by decide)

/-- C8 counterexample: at 23:00 UTC on 1970-01-01 in a UTC+2 service
timezone, the local calendar date (the claim's reading, in which the
date and the count window use the same local day) is 1970-01-02, but
the code builds the date string from `toISOString`, i.e. the UTC date,
and returns 19700101-001 instead of 19700102-001. -/
theorem C8_counterexample :
    generateOrderNumber [] momentF8 = "19700101-001" ∧
    claimedOrderNumber [] momentF8 = "19700102-001" ∧
    generateOrderNumber [] momentF8 ≠ claimedOrderNumber [] momentF8 := by
  refine ⟨by decide, by decide, ?_⟩
  decide

/-- C8 (amended): for every moment and store state the generator
returns YYYYMMDD-NNN where YYYYMMDD is the moment's UTC calendar date
(`isoDateStr` of the UTC milliseconds) while NNN is the zero-padded
width-3 value of one plus the count of orders created on the moment's
local-timezone calendar day (the midnight-to-midnight window); the two
calendars disagree whenever the local date differs from the UTC
date. -/
theorem C8_utc_date_local_window (orders : List Order) (now : Moment) :
    generateOrderNumber orders now =
      isoDateStr now.utcMillis ++ "-" ++
        padZero (toString (countOrdersOnLocalDay orders now.tzOffsetMillis (localDayOf now) + 1)) 3 := by
  simp only [generateOrderNumber]
  rw [countOrdersBetween_localDay]

/-- C9 counterexample: the claim states the auto-generated note reads
"status changed from X to Y"; the code writes the French template
"Statut modifié de X à Y". With no caller note supplied, the appended
entry carries the French note, not the claimed string. -/
theorem C9_counterexample :
    dF9.note = none ∧
    (findOrder (step stateF9 (.transition dF9)).orders "o9").map Order.history =
      some [{ status := .NEW, note := "Commande créée" },
            { status := .PREPARING, note := "Statut modifié de NEW à PREPARING" }] ∧
    "Statut modifié de NEW à PREPARING" ≠ "status changed from NEW to PREPARING" := by
  refine ⟨by decide, ?_, by decide⟩
  decide

/-- C9 (amended): on an existing order, a call supplying a status
appends exactly one history entry carrying that status and either the
caller-supplied note or the auto-generated note "Statut modifié de X à
Y" (X = previous status, Y = new status; an empty caller note falls
back to the auto note); a call supplying no status appends nothing, and
in particular a call with neither status nor isPaid succeeds without
error and leaves the history unchanged. -/
theorem C9_history_exact (s : ServerState) (d : UpdateData) (ord : Order)
    (hfind : findOrder s.orders d.orderId = some ord) :
    ∃ s', update_order_status s d = .ok s' ∧
      findOrder s'.orders d.orderId = some (applyUpdate ord d) ∧
      (∀ st, d.status = some st →
        ∃ e : HistoryEntry, (applyUpdate ord d).history = ord.history ++ [e] ∧
          e.status = st ∧
          ((∃ n, d.note = some n ∧ e.note = n) ∨ e.note = autoNote ord.status st)) ∧
      (d.status = none → (applyUpdate ord d).history = ord.history) := by
  refine ⟨transitionResult s d ord, update_order_status_eq s d ord hfind,
    findOrder_transitionResult s d ord hfind, ?_, ?_⟩
  · intro st hst
    refine ⟨{ status := st, note := jsOr d.note (autoNote ord.status st) }, ?_, rfl, ?_⟩
    · simp [applyUpdate, historyFor, hst]
    · cases hn : d.note with
      | none => exact Or.inr (by simp [jsOr])
      | some n =>
        by_cases hne : n = ""
        · exact Or.inr (by simp [jsOr, hne])
        · exact Or.inl ⟨n, rfl, by simp [jsOr, hne]⟩
  · intro hst
    simp [applyUpdate, historyFor, hst]

/-- C9 witness: the amended theorem applied to the NEW→PREPARING call
with no caller note. -/
theorem C9_history_exact_witness :
    ∃ s', update_order_status stateF9 dF9 = .ok s' := by
  obtain ⟨s', h, -, -, -⟩ := C9_history_exact stateF9 dF9 ordF9 (by decide)
  exact ⟨s', h⟩

/-- C10: a submitted cart line whose quantity is absent or zero (JS
falsy) yields an order item of quantity 1, because the handler stores
`item.quantity || 1`. -/
theorem C10_falsy_quantity_becomes_one (s : ServerState) (now : Moment) (od : NewOrderData)
    (i : Nat) (l : CartLine) (hl : od.panier[i]? = some l)
    (hq : l.quantity = none ∨ l.quantity = some 0)
    (s' : ServerState) (hok : new_order s now od = .ok s') :
    ∃ (o : Order) (itm : OrderItem), s'.orders = s.orders ++ [o] ∧
      o.items[i]? = some itm ∧ itm.quantity = 1 := by
  cases hres : resolveItems s.products od.panier with
  | error msg => simp [new_order, hres] at hok
  | ok items =>
    simp only [new_order, hres, Except.ok.injEq] at hok
    obtain ⟨itm, h1, h2⟩ := resolveItems_pointwise s.products od.panier items hres i l hl
    refine ⟨{ id := "order" ++ toString s.orders.length,
              number := generateOrderNumber s.orders now,
              customerName := od.nom,
              paymentMethod := mapPaymentMethod od.paiement,
              status := .NEW, isPaid := false, items := items,
              history := [{ status := .NEW, note := "Commande créée" }],
              createdAt := now.utcMillis }, itm, ?_, by simpa using h1, ?_⟩
    · rw [← hok]
    · rw [h2]
      rcases hq with h | h <;> simp [h, jsQuantity]

/-- C10 witness: submitting a cart line with quantity 0 produces an
order item of quantity 1. -/
theorem C10_falsy_quantity_becomes_one_witness :
    ∃ (s' : ServerState) (o : Order) (itm : OrderItem),
      new_order stateF10 { utcMillis := 0, tzOffsetMillis := 0 } odF10 = .ok s' ∧
      s'.orders = stateF10.orders ++ [o] ∧ o.items[0]? = some itm ∧ itm.quantity = 1 := by
  cases hE : new_order stateF10 { utcMillis := 0, tzOffsetMillis := 0 } odF10 with
  | error msg =>
    have hne : (new_order stateF10 { utcMillis := 0, tzOffsetMillis := 0 } odF10).isOk = true := by
      decide
    rw [hE] at hne
    simp [Except.isOk, Except.toBool, Except.toOption] at hne
  | ok s' =>
    obtain ⟨o, itm, h1, h2, h3⟩ :=
      C10_falsy_quantity_becomes_one stateF10 { utcMillis := 0, tzOffsetMillis := 0 } odF10 0
        { id := "pX", quantity := some 0 } (by decide) (Or.inr rfl) s' hE
    exact ⟨s', o, itm, rfl, h1, h2, h3⟩
